import Mathlib

/-!
Verification of the rolling-file subsystem of the `logit` logging library.

The embedding models the duration rolling writer (`DurationRollingFile` and its
operations) and the default log-file name generator (`nextFilename`).  Effects
of the surrounding operating system — the clock, file creation, close results
and the outcome of writing bytes to an open handle — are passed in explicitly
as oracle values, so every operation is a pure function of the writer state,
its arguments and the oracle.  The writer's mutex makes every public operation
a single atomic critical section, so a concurrent execution is modelled as the
sequence of those critical sections in lock-acquisition order.
-/

namespace Logit

/-- A Go error is modelled by its message; a Go `error` variable that may be
nil is modelled as `Option GoError` (with `none` for nil). -/
abbrev GoError := String

/-- The message of `os.ErrInvalid`, which `os.File` methods report when the
receiver is a nil handle. -/
def errInvalid : GoError := "invalid argument"

/-- An open file handle, identified by a number (creation order). -/
structure File where
  id : Nat
deriving DecidableEq, Repr

/-- Outcome of `(*os.File).Write` on a possibly-nil handle `h`.  Go's
`os.File.Write` returns `(0, os.ErrInvalid)` when the receiver is nil;
otherwise the operating system decides the outcome, supplied here as the
oracle value `res` (count written, error or nil). -/
def fileWrite (h : Option File) (res : Nat × Option GoError) :
    Nat × Option GoError :=
  match h with
  | none => (0, some errInvalid)
  | some _ => res

/-- Outcome of `(*os.File).Close` on a possibly-nil handle: nil handles report
`os.ErrInvalid`; otherwise the operating system decides, via `res`. -/
def fileClose (h : Option File) (res : Option GoError) : Option GoError :=
  match h with
  | none => some errInvalid
  | some _ => res

/-- A name generator, as consumed by the rolling writer: `NextName(directory,
now)` produces the path of the next file.  Instants are nanoseconds since the
epoch, as in Go's `time.Time`/`time.Duration` arithmetic. -/
abbrev NameGenerator := String → Int → String

/-- The fixed suffix of generated log files (`PrefixOfLogFile = ".log"` in the
source). -/
def PrefixOfLogFile : String := ".log"

/-- Go's `path.Join(dir, name)` restricted to already-clean arguments: the two
elements joined by a slash, or the other element when one is empty (the
`path.Clean` normalisation is the identity on such inputs). -/
def pathJoin (dir name : String) : String :=
  if dir = "" then name else dir ++ "/" ++ name

/-- Modelled from the spec: `DefaultNameGenerator` is called by the
constructor in the source but its definition is not among the provided files.
Per the spec it joins the directory with a timestamp-derived name carrying a
random disambiguator and the `.log` suffix.  The rolling writer treats
generated names opaquely (they only parametrise the file-creation oracle), so
the calendar rendering of the instant is modelled by its decimal value and the
random disambiguator by `0`. -/
def DefaultNameGenerator : NameGenerator :=
  fun directory now => pathJoin directory (Int.repr now ++ "-0" ++ PrefixOfLogFile)

/-- `minDuration = 1 * time.Second`, in nanoseconds: the floor below which
construction of a duration rolling file panics. -/
def minDuration : Int := 1000000000

/-- The state of a `DurationRollingFile`.  The `mu` mutex field is not part of
the state: it serialises the operations, which the embedding reflects by
making every operation one atomic step. -/
structure DurationRollingFile where
  /-- `file`: the writer used this moment; `none` is Go's nil. -/
  file : Option File
  /-- `directory`: the target storing all created files. -/
  directory : String
  /-- `lastTime`: the created time of the current file (nanoseconds). -/
  lastTime : Int
  /-- `duration`: the rolling threshold (nanoseconds). -/
  duration : Int
  /-- `nameGenerator`: generates the name of every created file. -/
  nameGenerator : NameGenerator

/-- The message of the panic raised when `duration < minDuration`
(`"Duration is smaller than " + minDuration.String() + "\n"`). -/
def durationTooSmallMsg : GoError := "Duration is smaller than 1s\n"

/-- `NewDurationRollingFile(directory, duration)`: panics (modelled as
`Except.error`) when `duration < minDuration`; otherwise returns the fresh
writer with no file open, zero `lastTime` (Go's zero `time.Time`) and the
default name generator.  No filesystem oracle is consumed: construction
touches no file. -/
def NewDurationRollingFile (directory : String) (duration : Int) :
    Except GoError DurationRollingFile :=
  if duration < minDuration then
    .error durationTooSmallMsg
  else
    .ok { file := none
          directory := directory
          lastTime := 0
          duration := duration
          nameGenerator := DefaultNameGenerator }

/-- The filesystem oracle consumed by one rotation attempt: `create` is the
outcome of `CreateFileOf` for a requested path, and `closeRes` the outcome of
closing the previously active handle (which the source discards). -/
structure FsOracle where
  create : String → Except GoError File
  closeRes : Option GoError

/-- Observable effects of one rotation check: whether `rollingToNextFile` was
invoked, which path was requested from the name generator, and the handle (if
any rotation succeeded) on which `Close` was invoked with its error ignored. -/
structure RollEffects where
  rotated : Bool
  requested : Option String
  closed : Option (Option File)
deriving Repr

/-- `rollingToNextFile(now)`: ask the name generator for the next path and try
to create that file.  On failure, return leaving the state untouched (the
current file stays in use, or stays nil).  On success, close the current
handle, discarding its result, install the new handle and set
`lastTime := now`. -/
def rollingToNextFile (drf : DurationRollingFile) (now : Int) (fs : FsOracle) :
    DurationRollingFile × RollEffects :=
  let path := drf.nameGenerator drf.directory now
  match fs.create path with
  | .error _ => (drf, ⟨true, some path, none⟩)
  | .ok newFile =>
      let _ := fileClose drf.file fs.closeRes
      ({ drf with file := some newFile, lastTime := now },
       ⟨true, some path, some drf.file⟩)

/-- `ensureFileIsCorrect()`: with `now` the observed clock value, invoke
rotation exactly when the file is nil or `now - lastTime >= duration`. -/
def ensureFileIsCorrect (drf : DurationRollingFile) (now : Int)
    (fs : FsOracle) : DurationRollingFile × RollEffects :=
  if drf.file = none ∨ now - drf.lastTime ≥ drf.duration then
    rollingToNextFile drf now fs
  else
    (drf, ⟨false, none, none⟩)

/-- The oracle consumed by one `Write` call: the clock observation
(`time.Now()`), the filesystem oracle for a possible rotation, and the
operating system's outcome for writing the payload to an open handle. -/
structure WriteOracle where
  now : Int
  fs : FsOracle
  res : Nat × Option GoError

/-- The result of one `Write` call: the post state, the `(n, err)` pair
returned to the caller, the rotation effects, the handle the payload was
written to (nil possible) and the payload itself. -/
structure WriteResult where
  state : DurationRollingFile
  n : Nat
  err : Option GoError
  effects : RollEffects
  wroteTo : Option File
  payload : List Nat

/-- `Write(p)`: under the lock, run `ensureFileIsCorrect` and then return the
active handle's write result verbatim. -/
def DurationRollingFile.Write (drf : DurationRollingFile) (p : List Nat)
    (ω : WriteOracle) : WriteResult :=
  let step := ensureFileIsCorrect drf ω.now ω.fs
  let out := fileWrite step.1.file ω.res
  ⟨step.1, out.1, out.2, step.2, step.1.file, p⟩

/-- `Close()`: under the lock, close the active handle and return its error. -/
def DurationRollingFile.Close (drf : DurationRollingFile)
    (res : Option GoError) : Option GoError :=
  fileClose drf.file res

/-- `SetNameGenerator(newNameGenerator)`: under the lock, replace
`drf.nameGenerator`. -/
def SetNameGenerator (drf : DurationRollingFile) (g : NameGenerator) :
    DurationRollingFile :=
  { drf with nameGenerator := g }

/-- A sequence of `Write` calls in lock-acquisition order (the mutex makes
each call one atomic critical section, so any concurrent execution is some
such sequence). -/
def runWrites (drf : DurationRollingFile) :
    List (List Nat × WriteOracle) → DurationRollingFile × List WriteResult
  | [] => (drf, [])
  | (p, ω) :: rest =>
      let r := DurationRollingFile.Write drf p ω
      let tail := runWrites r.state rest
      (tail.1, r :: tail.2)

/-- A broken-down Go `time.Time` instant, with the fields read by the layout
`"20060102-150405"`. -/
structure GoTime where
  year : Nat
  month : Nat
  day : Nat
  hour : Nat
  minute : Nat
  second : Nat
deriving DecidableEq, Repr

/-- Two-digit zero padding, as Go's layout components `01 02 15 04 05`. -/
def pad2 (n : Nat) : String :=
  if n < 10 then "0" ++ Nat.repr n else Nat.repr n

/-- Four-digit zero padding, as Go's layout component `2006`. -/
def pad4 (n : Nat) : String :=
  if n < 10 then "000" ++ Nat.repr n
  else if n < 100 then "00" ++ Nat.repr n
  else if n < 1000 then "0" ++ Nat.repr n
  else Nat.repr n

/-- `now.Format("20060102-150405")`: the instant rendered as
`YYYYMMDD-HHMMSS`. -/
def formatYmdHms (t : GoTime) : String :=
  pad4 t.year ++ pad2 t.month ++ pad2 t.day ++ "-" ++
    pad2 t.hour ++ pad2 t.minute ++ pad2 t.second

/-- The state of the shared `random` source (`rand.New(rand.NewSource(...))`),
modelled as the stream of raw values it will produce next, listed in order. -/
abbrev RandState := List Nat

/-- `random.Intn(n)`: consume the next raw value of the shared source and
reduce it into `[0, n)`; an exhausted stream yields `0`. -/
def randIntn (n : Nat) (s : RandState) : Nat × RandState :=
  match s with
  | [] => (0, [])
  | d :: rest => (d % n, rest)

/-- `nextFilename(directory)` applied to `now`: draw `random.Intn(1000)` from
the shared source and return
`path.Join(directory, now.Format("20060102-150405") + "-" + itoa(r) + PrefixOfLogFile)`,
together with the advanced source state. -/
def nextFilename (directory : String) (now : GoTime) (s : RandState) :
    String × RandState :=
  let draw := randIntn 1000 s
  (pathJoin directory
    (formatYmdHms now ++ "-" ++ Nat.repr draw.1 ++ PrefixOfLogFile), draw.2)

/-! ## Helper lemmas -/

/-- Invoking `rollingToNextFile` is recorded whatever the creation outcome. -/
theorem rollingToNextFile_rotated (drf : DurationRollingFile) (now : Int)
    (fs : FsOracle) : (rollingToNextFile drf now fs).2.rotated = true := by
  unfold rollingToNextFile
  cases h : fs.create (drf.nameGenerator drf.directory now) <;> simp [h]

/-- Every rotation attempt asks the current name generator for the next
path. -/
theorem rollingToNextFile_requested (drf : DurationRollingFile) (now : Int)
    (fs : FsOracle) :
    (rollingToNextFile drf now fs).2.requested =
      some (drf.nameGenerator drf.directory now) := by
  unfold rollingToNextFile
  cases h : fs.create (drf.nameGenerator drf.directory now) <;> simp [h]

/-- A write whose rotation condition is false touches nothing: the state is
returned as is and the payload goes to the current handle. -/
theorem write_no_rotation (drf : DurationRollingFile) (p : List Nat)
    (ω : WriteOracle)
    (h : ¬(drf.file = none ∨ ω.now - drf.lastTime ≥ drf.duration)) :
    drf.Write p ω =
      ⟨drf, (fileWrite drf.file ω.res).1, (fileWrite drf.file ω.res).2,
        ⟨false, none, none⟩, drf.file, p⟩ := by
  simp only [DurationRollingFile.Write, ensureFileIsCorrect, if_neg h]

/-- A write whose rotation condition holds and whose file creation succeeds
installs the new handle, stamps `lastTime` with the observed clock value,
closes the previous handle and sends the payload to the new handle. -/
theorem write_rotation_ok (drf : DurationRollingFile) (p : List Nat)
    (ω : WriteOracle) (f : File)
    (hcond : drf.file = none ∨ ω.now - drf.lastTime ≥ drf.duration)
    (hok : ω.fs.create (drf.nameGenerator drf.directory ω.now) = .ok f) :
    drf.Write p ω =
      ⟨{ drf with file := some f, lastTime := ω.now }, ω.res.1, ω.res.2,
        ⟨true, some (drf.nameGenerator drf.directory ω.now), some drf.file⟩,
        some f, p⟩ := by
  simp only [DurationRollingFile.Write, ensureFileIsCorrect, if_pos hcond,
    rollingToNextFile, hok, fileWrite]

/-- A write whose rotation attempt fails to create the next file leaves the
state untouched, closes nothing, and still returns the current handle's write
outcome. -/
theorem write_create_fail (drf : DurationRollingFile) (p : List Nat)
    (ω : WriteOracle) (e : GoError)
    (hfail : ω.fs.create (drf.nameGenerator drf.directory ω.now) = .error e) :
    (drf.Write p ω).state = drf ∧
    ((drf.Write p ω).n, (drf.Write p ω).err) = fileWrite drf.file ω.res ∧
    (drf.Write p ω).effects.closed = none ∧
    (drf.Write p ω).wroteTo = drf.file := by
  simp only [DurationRollingFile.Write, ensureFileIsCorrect]
  split
  · simp [rollingToNextFile, hfail]
  · simp

/-- Running a concatenation of write sequences runs them in order. -/
theorem runWrites_append (l₁ l₂ : List (List Nat × WriteOracle))
    (drf : DurationRollingFile) :
    runWrites drf (l₁ ++ l₂) =
      ((runWrites (runWrites drf l₁).1 l₂).1,
       (runWrites drf l₁).2 ++ (runWrites (runWrites drf l₁).1 l₂).2) := by
  induction l₁ generalizing drf with
  | nil => simp [runWrites]
  | cons x l₁ ih => simp [runWrites, ih]

/-- Every write in a run produces exactly one result, carrying its payload. -/
theorem runWrites_payloads (l : List (List Nat × WriteOracle))
    (drf : DurationRollingFile) :
    ((runWrites drf l).2.map (fun r => r.payload)) = l.map (fun x => x.1) := by
  induction l generalizing drf with
  | nil => simp [runWrites]
  | cons x l ih => simp [runWrites, DurationRollingFile.Write, ih]

/-- A run all of whose writes stay strictly inside the current rolling window
rotates nothing: the state is unchanged and every payload goes to the current
handle. -/
theorem runWrites_no_rotation (f : File)
    (l : List (List Nat × WriteOracle)) :
    ∀ drf : DurationRollingFile, drf.file = some f →
      (∀ x ∈ l, x.2.now - drf.lastTime < drf.duration) →
      (runWrites drf l).1 = drf ∧
      ∀ r ∈ (runWrites drf l).2,
        r.effects.rotated = false ∧ r.wroteTo = some f := by
  induction l with
  | nil =>
    intro drf hf hlt
    simp [runWrites]
  | cons x l ih =>
    intro drf hf hlt
    have hcond : ¬(drf.file = none ∨ x.2.now - drf.lastTime ≥ drf.duration) := by
      push_neg
      refine ⟨by simp [hf], ?_⟩
      have := hlt x (by simp)
      omega
    have hw := write_no_rotation drf x.1 x.2 hcond
    have hrest := ih drf hf (fun y hy => hlt y (by simp [hy]))
    simp only [runWrites, hw]
    refine ⟨hrest.1, ?_⟩
    intro r hr
    simp only [List.mem_cons] at hr
    rcases hr with hr | hr
    · subst hr
      exact ⟨rfl, hf⟩
    · exact hrest.2 r hr

/-! ## Theorems -/

/-- C1: on every write, rotation is invoked exactly when the active file is
unset or `now - lastTime ≥ duration`; in particular with a one-second
threshold, writes at t = 0 and t = 1.5s land in two distinct files while
writes at t = 0 and t = 0.5s land in the same file. -/
theorem rotation_trigger_iff (drf : DurationRollingFile) (now : Int)
    (fs : FsOracle) :
    ((ensureFileIsCorrect drf now fs).2.rotated = true ↔
      drf.file = none ∨ now - drf.lastTime ≥ drf.duration) ∧
    (let w₀ : DurationRollingFile :=
      ⟨none, "D", 0, minDuration, DefaultNameGenerator⟩
     let r₁ := w₀.Write [65] ⟨0, ⟨fun _ => .ok ⟨1⟩, none⟩, (1, none)⟩
     let r₂ := r₁.state.Write [66]
       ⟨1500000000, ⟨fun _ => .ok ⟨2⟩, none⟩, (1, none)⟩
     let r₃ := r₁.state.Write [66]
       ⟨500000000, ⟨fun _ => .ok ⟨2⟩, none⟩, (1, none)⟩
     r₁.wroteTo = some ⟨1⟩ ∧ r₂.effects.rotated = true ∧
       r₂.wroteTo = some ⟨2⟩ ∧ r₃.effects.rotated = false ∧
       r₃.wroteTo = some ⟨1⟩) := by
  constructor
  · unfold ensureFileIsCorrect
    split
    · next h => exact iff_of_true (rollingToNextFile_rotated drf now fs) h
    · next h => exact iff_of_false (by simp) h
  · exact ⟨rfl, rfl, rfl, rfl, rfl⟩

/-- C2: when a write's rotation attempt fails to create the next file, the
writer state is unchanged (handle and `lastTime` keep their values, nothing
is closed), the caller still receives the current handle's write outcome with
no trace of the failure, and the very next write at a no-earlier instant
invokes rotation again. -/
theorem rotation_failure_silent (drf : DurationRollingFile) (p : List Nat)
    (ω : WriteOracle) (e : GoError)
    (hfail : ω.fs.create (drf.nameGenerator drf.directory ω.now) = .error e) :
    ((drf.Write p ω).state = drf ∧
     ((drf.Write p ω).n, (drf.Write p ω).err) = fileWrite drf.file ω.res ∧
     (drf.Write p ω).effects.closed = none) ∧
    (∀ now' : Int, ω.now ≤ now' →
      (drf.file = none ∨ ω.now - drf.lastTime ≥ drf.duration) →
      ∀ fs' : FsOracle,
        (ensureFileIsCorrect (drf.Write p ω).state now' fs').2.rotated =
          true) := by
  have hw := write_create_fail drf p ω e hfail
  refine ⟨⟨hw.1, hw.2.1, hw.2.2.1⟩, ?_⟩
  intro now' hle hcond fs'
  rw [hw.1]
  have hcond' : drf.file = none ∨ now' - drf.lastTime ≥ drf.duration := by
    rcases hcond with h | h
    · exact Or.inl h
    · right
      omega
  unfold ensureFileIsCorrect
  rw [if_pos hcond']
  exact rollingToNextFile_rotated drf now' fs'

/-- Witness for C2: a writer holding file 1 at a crossed boundary whose
creation is denied keeps its state and reports the old handle's outcome. -/
theorem rotation_failure_silent_witness :
    (DurationRollingFile.Write
        ⟨some ⟨1⟩, "D", 0, minDuration, DefaultNameGenerator⟩ [65]
        ⟨2 * minDuration, ⟨fun _ => .error "permission denied", none⟩,
          (1, none)⟩).state =
      ⟨some ⟨1⟩, "D", 0, minDuration, DefaultNameGenerator⟩ :=
  (rotation_failure_silent _ [65] _ "permission denied" rfl).1.1

/-- C3: when a rotation's file creation succeeds, the previous handle is the
one closed (its close result being discarded: the rotation outcome does not
depend on it), the new handle becomes active, and `lastTime` is set to the
clock value observed at the start of that write's rotation check. -/
theorem rotation_success (drf : DurationRollingFile) (now : Int)
    (fs : FsOracle) (f : File)
    (hok : fs.create (drf.nameGenerator drf.directory now) = .ok f) :
    rollingToNextFile drf now fs =
      ({ drf with file := some f, lastTime := now },
       ⟨true, some (drf.nameGenerator drf.directory now), some drf.file⟩) ∧
    (∀ c : Option GoError,
      rollingToNextFile drf now ⟨fs.create, c⟩ = rollingToNextFile drf now fs) ∧
    (∀ p res, ((drf.Write p ⟨now, fs, res⟩).state.lastTime = now ∧
        (drf.Write p ⟨now, fs, res⟩).state.file = some f) ∨
      ¬(drf.file = none ∨ now - drf.lastTime ≥ drf.duration)) := by
  have hroll : rollingToNextFile drf now fs =
      ({ drf with file := some f, lastTime := now },
       ⟨true, some (drf.nameGenerator drf.directory now), some drf.file⟩) := by
    simp only [rollingToNextFile, hok]
  refine ⟨hroll, ?_, ?_⟩
  · intro c
    simp only [rollingToNextFile, hok]
  · intro p res
    by_cases hcond : drf.file = none ∨ now - drf.lastTime ≥ drf.duration
    · left
      have hw := write_rotation_ok drf p ⟨now, fs, res⟩ f hcond hok
      rw [hw]
      exact ⟨rfl, rfl⟩
    · exact Or.inr hcond

/-- Witness for C3: a successful creation at a crossed boundary installs file
2, stamps the observed time and closes file 1. -/
theorem rotation_success_witness :
    rollingToNextFile ⟨some ⟨1⟩, "D", 0, minDuration, DefaultNameGenerator⟩
        (2 * minDuration) ⟨fun _ => .ok ⟨2⟩, some "close failed"⟩ =
      (⟨some ⟨2⟩, "D", 2 * minDuration, minDuration, DefaultNameGenerator⟩,
       ⟨true, some (DefaultNameGenerator "D" (2 * minDuration)),
         some (some ⟨1⟩)⟩) :=
  (rotation_success ⟨some ⟨1⟩, "D", 0, minDuration, DefaultNameGenerator⟩
    (2 * minDuration) ⟨fun _ => .ok ⟨2⟩, some "close failed"⟩ ⟨2⟩ rfl).1

/-- C6: the `(countWritten, error)` pair a write returns is exactly the
active handle's own write outcome: the operating system's result verbatim
when a handle is open (partial counts and I/O errors included, no retry), and
the nil handle's `(0, ErrInvalid)` otherwise. -/
theorem write_result_verbatim (drf : DurationRollingFile) (p : List Nat)
    (ω : WriteOracle) :
    ((drf.Write p ω).n, (drf.Write p ω).err) =
      fileWrite (drf.Write p ω).state.file ω.res ∧
    (∀ h : File, (drf.Write p ω).state.file = some h →
      ((drf.Write p ω).n, (drf.Write p ω).err) = ω.res) := by
  constructor
  · rfl
  · intro h hh
    have : ((drf.Write p ω).n, (drf.Write p ω).err) =
        fileWrite (drf.Write p ω).state.file ω.res := rfl
    rw [this, hh]
    rfl

/-- Witness for C6: with no rotation pending, a partial OS outcome of
`(7, disk full)` is handed back unchanged. -/
theorem write_result_verbatim_witness :
    ((DurationRollingFile.Write
        ⟨some ⟨1⟩, "D", 0, minDuration, DefaultNameGenerator⟩ [65, 66]
        ⟨1, ⟨fun _ => .error "x", none⟩, (7, some "disk full")⟩).n,
     (DurationRollingFile.Write
        ⟨some ⟨1⟩, "D", 0, minDuration, DefaultNameGenerator⟩ [65, 66]
        ⟨1, ⟨fun _ => .error "x", none⟩, (7, some "disk full")⟩).err) =
      (7, some "disk full") :=
  (write_result_verbatim _ [65, 66] _).2 ⟨1⟩ rfl

/-- C7: swapping the name generator replaces only the strategy used by future
rotations: the open file, `lastTime`, `duration` and `directory` are
unchanged, the next rotation requests its path from the new strategy, and a
write that does not rotate consults no strategy and still writes the old
handle. -/
theorem set_name_generator_frame (drf : DurationRollingFile)
    (g : NameGenerator) :
    SetNameGenerator drf g = { drf with nameGenerator := g } ∧
    (SetNameGenerator drf g).file = drf.file ∧
    (SetNameGenerator drf g).lastTime = drf.lastTime ∧
    (SetNameGenerator drf g).duration = drf.duration ∧
    (SetNameGenerator drf g).directory = drf.directory ∧
    (∀ now fs, (rollingToNextFile (SetNameGenerator drf g) now fs).2.requested =
      some (g drf.directory now)) ∧
    (∀ p ω, ¬(drf.file = none ∨ ω.now - drf.lastTime ≥ drf.duration) →
      ((SetNameGenerator drf g).Write p ω).effects.requested = none ∧
      ((SetNameGenerator drf g).Write p ω).wroteTo = drf.file) := by
  refine ⟨rfl, rfl, rfl, rfl, rfl, ?_, ?_⟩
  · intro now fs
    exact rollingToNextFile_requested (SetNameGenerator drf g) now fs
  · intro p ω hcond
    have hw := write_no_rotation (SetNameGenerator drf g) p ω hcond
    rw [hw]
    exact ⟨rfl, rfl⟩

/-- Witness for C7: after a swap, a non-rotating write requests no path and
keeps writing file 1. -/
theorem set_name_generator_frame_witness :
    ((SetNameGenerator ⟨some ⟨1⟩, "D", 0, minDuration, DefaultNameGenerator⟩
        (fun d _ => d ++ "/custom.log")).Write [65]
        ⟨1, ⟨fun _ => .ok ⟨9⟩, none⟩, (1, none)⟩).effects.requested = none ∧
    ((SetNameGenerator ⟨some ⟨1⟩, "D", 0, minDuration, DefaultNameGenerator⟩
        (fun d _ => d ++ "/custom.log")).Write [65]
        ⟨1, ⟨fun _ => .ok ⟨9⟩, none⟩, (1, none)⟩).wroteTo = some ⟨1⟩ :=
  (set_name_generator_frame
    ⟨some ⟨1⟩, "D", 0, minDuration, DefaultNameGenerator⟩
    (fun d _ => d ++ "/custom.log")).2.2.2.2.2.2 [65]
    ⟨1, ⟨fun _ => .ok ⟨9⟩, none⟩, (1, none)⟩ (by decide)

/-- C10: a write issued while no file has ever been created, whose own
rotation attempt also fails, returns `(0, ErrInvalid)` — a zero count and a
non-nil error, no crash — and leaves the state unchanged, so a later write
whose creation succeeds installs the new handle and returns the operating
system's outcome for it. -/
theorem write_unset_create_fail (drf : DurationRollingFile) (p : List Nat)
    (ω : WriteOracle) (e : GoError) (hnil : drf.file = none)
    (hfail : ω.fs.create (drf.nameGenerator drf.directory ω.now) = .error e) :
    (drf.Write p ω).n = 0 ∧
    (drf.Write p ω).err = some errInvalid ∧
    (drf.Write p ω).state = drf ∧
    (∀ p' ω' f,
      ω'.fs.create (drf.nameGenerator drf.directory ω'.now) = .ok f →
      ((drf.Write p ω).state.Write p' ω').state.file = some f ∧
      (((drf.Write p ω).state.Write p' ω').n,
        ((drf.Write p ω).state.Write p' ω').err) = ω'.res) := by
  have hw := write_create_fail drf p ω e hfail
  have hres : ((drf.Write p ω).n, (drf.Write p ω).err) = (0, some errInvalid) := by
    rw [hw.2.1, hnil]
    rfl
  refine ⟨congrArg Prod.fst hres, congrArg Prod.snd hres, hw.1, ?_⟩
  intro p' ω' f hok
  rw [hw.1]
  have hw' := write_rotation_ok drf p' ω' f (Or.inl hnil) hok
  rw [hw']
  exact ⟨rfl, rfl⟩

/-- Witness for C10: with nothing ever created and creation denied, a write
reports `(0, ErrInvalid)`; once creation is allowed, the next write succeeds
on the new file. -/
theorem write_unset_create_fail_witness :
    (DurationRollingFile.Write
        ⟨none, "D", 0, minDuration, DefaultNameGenerator⟩ [65]
        ⟨0, ⟨fun _ => .error "no space left on device", none⟩,
          (9, none)⟩).n = 0 ∧
    (DurationRollingFile.Write
        ⟨none, "D", 0, minDuration, DefaultNameGenerator⟩ [65]
        ⟨0, ⟨fun _ => .error "no space left on device", none⟩,
          (9, none)⟩).err = some errInvalid :=
  ⟨(write_unset_create_fail _ [65] _ "no space left on device" rfl rfl).1,
   (write_unset_create_fail _ [65] _ "no space left on device" rfl rfl).2.1⟩

/-- C4: the mutex makes every write one atomic critical section, so N
concurrent writers are the sequence of their writes in lock-acquisition
order.  When such a run straddles a single rotation boundary — the writes
before the boundary and after the winning one fall strictly inside a rolling
window — exactly one rotation occurs: the first acquirer past the boundary
rotates, every other write sees the already-settled state, and every payload
is written intact, in one piece, to exactly one of the two files. -/
theorem mutual_exclusion_one_rotation (drf : DurationRollingFile)
    (f₀ f₁ : File) (l₁ l₂ : List (List Nat × WriteOracle)) (pc : List Nat)
    (ωc : WriteOracle) (hf : drf.file = some f₀)
    (h₁ : ∀ x ∈ l₁, x.2.now - drf.lastTime < drf.duration)
    (hc : ωc.now - drf.lastTime ≥ drf.duration)
    (hok : ωc.fs.create (drf.nameGenerator drf.directory ωc.now) = .ok f₁)
    (h₂ : ∀ x ∈ l₂, x.2.now - ωc.now < drf.duration) :
    List.countP (fun r => r.effects.rotated)
        (runWrites drf (l₁ ++ (pc, ωc) :: l₂)).2 = 1 ∧
    (∀ r ∈ (runWrites drf (l₁ ++ (pc, ωc) :: l₂)).2,
      r.wroteTo = some f₀ ∨ r.wroteTo = some f₁) ∧
    ((runWrites drf (l₁ ++ (pc, ωc) :: l₂)).2.map (fun r => r.payload)) =
      (l₁ ++ (pc, ωc) :: l₂).map (fun x => x.1) := by
  have hseg1 := runWrites_no_rotation f₀ l₁ drf hf h₁
  have hw := write_rotation_ok drf pc ωc f₁ (Or.inr hc) hok
  have hseg2 := runWrites_no_rotation f₁ l₂
    { drf with file := some f₁, lastTime := ωc.now } rfl
    (fun x hx => h₂ x hx)
  refine ⟨?_, ?_, runWrites_payloads _ _⟩
  · rw [runWrites_append l₁ ((pc, ωc) :: l₂) drf, hseg1.1]
    simp only [runWrites, hw]
    rw [List.countP_append, List.countP_cons]
    have z1 : List.countP (fun r => r.effects.rotated)
        (runWrites drf l₁).2 = 0 :=
      List.countP_eq_zero.mpr (fun a ha => by simp [(hseg1.2 a ha).1])
    have z2 : List.countP (fun r => r.effects.rotated)
        (runWrites { drf with file := some f₁, lastTime := ωc.now } l₂).2 = 0 :=
      List.countP_eq_zero.mpr (fun a ha => by simp [(hseg2.2 a ha).1])
    simp [z1, z2]
  · rw [runWrites_append l₁ ((pc, ωc) :: l₂) drf, hseg1.1]
    simp only [runWrites, hw]
    intro r hr
    rw [List.mem_append, List.mem_cons] at hr
    rcases hr with hr | hr | hr
    · exact Or.inl (hseg1.2 r hr).2
    · subst hr
      exact Or.inr rfl
    · exact Or.inr (hseg2.2 r hr).2

/-- Witness for C4: three serialized writers around a one-second boundary —
at t = 5ns, t = 1s (creation succeeding with file 2) and t = 1s + 5ns —
produce exactly one rotation. -/
theorem mutual_exclusion_one_rotation_witness :
    List.countP (fun r => r.effects.rotated)
      (runWrites ⟨some ⟨1⟩, "D", 0, minDuration, DefaultNameGenerator⟩
        ([([65], ⟨5, ⟨fun _ => .error "x", none⟩, (1, none)⟩)] ++
          ([66], ⟨minDuration, ⟨fun _ => .ok ⟨2⟩, none⟩, (1, none)⟩) ::
          [([67], ⟨minDuration + 5, ⟨fun _ => .error "x", none⟩,
            (1, none)⟩)])).2 = 1 :=
  (mutual_exclusion_one_rotation
    ⟨some ⟨1⟩, "D", 0, minDuration, DefaultNameGenerator⟩ ⟨1⟩ ⟨2⟩
    [([65], ⟨5, ⟨fun _ => .error "x", none⟩, (1, none)⟩)]
    [([67], ⟨minDuration + 5, ⟨fun _ => .error "x", none⟩, (1, none)⟩)]
    [66] ⟨minDuration, ⟨fun _ => .ok ⟨2⟩, none⟩, (1, none)⟩
    rfl (by decide) (by decide) rfl (by decide)).1

/-- C5: constructing a duration rolling writer with a threshold strictly below
one second fails with the construction error (the constructor consumes no
filesystem oracle, so no file is touched); at or above the floor construction
succeeds and the writer starts with no active file, which stays unset until
the first write. -/
theorem construction_floor (directory : String) (d : Int) :
    (d < minDuration →
      NewDurationRollingFile directory d = .error durationTooSmallMsg) ∧
    (minDuration ≤ d →
      NewDurationRollingFile directory d =
        .ok ⟨none, directory, 0, d, DefaultNameGenerator⟩) := by
  constructor
  · intro h
    simp [NewDurationRollingFile, h]
  · intro h
    simp [NewDurationRollingFile, not_lt.mpr h]

/-- Witness for C5: a 5ns threshold is rejected with the construction error
and a 1s threshold is accepted with no file open. -/
theorem construction_floor_witness :
    NewDurationRollingFile "D" 5 = .error durationTooSmallMsg ∧
    NewDurationRollingFile "D" minDuration =
      .ok ⟨none, "D", 0, minDuration, DefaultNameGenerator⟩ :=
  ⟨(construction_floor "D" 5).1 (by decide),
   (construction_floor "D" minDuration).2 (le_refl _)⟩

/-- C8: for every directory, timestamp and random-source state, the default
name generator produces the directory joined with the timestamp formatted as
`YYYYMMDD-HHMMSS`, a dash, a random integer in the range 0 to 999, and the
fixed suffix `.log`; on the source's documented sample it yields
`logs/20200304-145246-45.log`. -/
theorem default_name_format (directory : String) (now : GoTime)
    (s : RandState) :
    (nextFilename directory now s).1 =
      pathJoin directory
        (formatYmdHms now ++ "-" ++ Nat.repr (randIntn 1000 s).1 ++
          PrefixOfLogFile) ∧
    (randIntn 1000 s).1 ≤ 999 ∧
    PrefixOfLogFile = ".log" ∧
    (nextFilename "logs" ⟨2020, 3, 4, 14, 52, 46⟩ [45]).1 =
      "logs/20200304-145246-45.log" := by
  refine ⟨rfl, ?_, rfl, by decide⟩
  cases s with
  | nil => decide
  | cons d rest =>
    have h : d % 1000 < 1000 := Nat.mod_lt d (by decide)
    simp [randIntn]
    omega

/-- C9 counterexample: the default name generator is not a pure stateless
function of (directory, current time): called twice with the same directory
and the same timestamp, the second call running on the random-source state
left behind by the first, it returns two different paths. -/
theorem name_generator_stateful :
    (nextFilename "d" ⟨2020, 3, 4, 14, 52, 46⟩ [1, 2]).1 ≠
      (nextFilename "d" ⟨2020, 3, 4, 14, 52, 46⟩
        (nextFilename "d" ⟨2020, 3, 4, 14, 52, 46⟩ [1, 2]).2).1 := by
  decide

/-- C9 amended: the default name generator is deterministic as a function of
(directory, current time, shared random-source state): its output depends only
on the directory, the timestamp and the next pending draw of the source, so
two invocations agreeing on those return the same path. -/
theorem name_generator_deterministic (directory : String) (now : GoTime)
    (s₁ s₂ : RandState) (h : s₁.head? = s₂.head?) :
    (nextFilename directory now s₁).1 = (nextFilename directory now s₂).1 := by
  cases s₁ with
  | nil =>
    cases s₂ with
    | nil => rfl
    | cons b t₂ => simp at h
  | cons a t₁ =>
    cases s₂ with
    | nil => simp at h
    | cons b t₂ =>
      simp [List.head?] at h
      simp [nextFilename, randIntn, h]

/-- Witness for C9's amended theorem: two source states with the same next
draw give the same path. -/
theorem name_generator_deterministic_witness :
    (nextFilename "d" ⟨2020, 3, 4, 14, 52, 46⟩ [7, 1]).1 =
      (nextFilename "d" ⟨2020, 3, 4, 14, 52, 46⟩ [7, 2]).1 :=
  name_generator_deterministic "d" ⟨2020, 3, 4, 14, 52, 46⟩ [7, 1] [7, 2] rfl

end Logit
